import Mathlib

/-!
Verification of the Vertex AI Vector Search import path of vector-io.

Shallow embedding of the two source files:
  * `src/import_vdf/vertexai_vector_search_import.py`
    (`ImportVertexAIVectorSearch`): filter construction, batching,
    resource lookup/creation/deployment, ingestion accounting.
  * `src/vdf_io/import_vdf/vdf_import_cls.py` (`ImportVDB`):
    `get_vector_column_name`.

Python scalars are modelled by `PyVal`, raised exceptions by `PyErr`
threaded through `Except`, and a row (the dict produced by
`json.loads(row.to_json())`) by an association list from column name to
`PyVal`.  Remote state (indexes, endpoints, deployed indexes) is modelled
by the `Backend` structure; remote calls become lookups in it, and the
model functions additionally return the number of creation calls issued.
-/

/-- A Python scalar value as it appears in a loaded row.  The claims only
exercise the scalar columns read by the restrict/crowding logic, so list
values (the embedding vectors) are not represented here.  Python floats are
modelled as rationals; the values that actually flow through the modelled
code paths are exact (integers such as `3.0`). -/
inductive PyVal where
  | str (s : String)
  | int (n : Int)
  | float (q : Rat)
  | bool (b : Bool)
deriving DecidableEq, Repr

/-- A raised Python exception, as the modelled code can produce it. -/
inductive PyErr where
  | attrError (msg : String)
  | keyError (key : String)
  | idxError (msg : String)
  | resourceNotExist (resource : String)
  | notFoundError (msg : String)
  | apiError (msg : String)
deriving DecidableEq, Repr

/-- Python `str()` on the scalars above: `str(42) = "42"`,
`str(True) = "True"`.  A float with denominator 1 renders as Python renders
an integral float (`str(3.0) = "3.0"`); no non-integral float reaches
`str()` in the modelled paths. -/
def pyStr : PyVal → String
  | .str s => s
  | .int n => toString n
  | .bool b => if b then "True" else "False"
  | .float q =>
      if q.den = 1 then toString q.num ++ ".0"
      else toString q.num ++ "/" ++ toString q.den

/-- A row: the dict `json.loads(row.to_json())`, restricted to its scalar
columns.  Keys are unique in a Python dict; lookup takes the first hit. -/
def Row : Type := List (String × PyVal)

/-- Python `row[c]` as a total lookup: `none` when the key is absent. -/
def rowLookup (row : Row) (c : String) : Option PyVal :=
  (List.find? (fun kv => kv.1 == c) row).map Prod.snd

/-- Python `row[col_name]` where `col_name` came from `dict.get` and may be
`None`: a missing key (or the key `None`, absent from a dict with string
keys) raises `KeyError`. -/
def pyRowGet (row : Row) (c : Option String) : Except PyErr PyVal :=
  match c with
  | none => .error (.keyError "None")
  | some s =>
      match rowLookup row s with
      | some v => .ok v
      | none => .error (.keyError s)

/-!
## Batch assembly (`upsert_data`, lines 707-803)

Per parquet file, the row loop appends one datapoint per row to
`insert_datapoints_payload`; right after appending the row at index `idx`
(pandas `RangeIndex`, so `idx = 0, 1, 2, ...`) it checks
`idx % self.batch_size == 0` and, when true, submits the payload and resets
it; after the loop a non-empty leftover payload is submitted.
-/

/-- The row loop of `upsert_data` restricted to its batching effect: `idx`
is the running pandas index, the accumulator is the current
`insert_datapoints_payload`, and the result is the list of submitted
batches in submission order. -/
def upsertBatchesAux (B : Nat) : List α → Nat → List α → List (List α)
  | [], _, payload => if payload.isEmpty then [] else [payload]
  | r :: rs, idx, payload =>
      let payload := payload ++ [r]
      if idx % B == 0 then
        payload :: upsertBatchesAux B rs (idx + 1) []
      else
        upsertBatchesAux B rs (idx + 1) payload

/-- The batches `upsert_data` submits for one file whose rows are `rows`,
with configured batch size `B`. -/
def upsertBatches (B : Nat) (rows : List α) : List (List α) :=
  upsertBatchesAux B rows 0 []

/-- The batch count the specification claims: `ceil(R / B)`. -/
def ceilDiv (R B : Nat) : Nat := (R + B - 1) / B

/-!
## Numeric restricts (`__init__` lines 128-139, `upsert_data` lines 753-762)

`__init__` copies each entry of `args["numeric_restricts"]` into a stored
dict holding only `namespace` and `data_type` (any further key of the
configured entry, such as a source column, is dropped).  Per row,
`upsert_data` builds one dict per stored entry: `namespace` is copied, and
under the key named by `data_type` it stores `row[entry.get("namespace")]`
unchanged — the row value is looked up under the *namespace* and is not
converted.
-/

/-- An element of `args["numeric_restricts"]` as the configuration's data
model describes it: a namespace, a declared data type, and the column the
value should come from. -/
structure NumericArgEntry where
  namespace_ : Option String
  data_type : Option String
  source_column : Option String
deriving DecidableEq, Repr

/-- A stored numeric filter entry (`list_of_numeric_entries` element):
`__init__` keeps only `name.get("namespace")` and `name.get("data_type")`. -/
structure NumericSpec where
  namespace_ : Option String
  data_type : Option String
deriving DecidableEq, Repr

/-- `__init__` lines 128-139: build `list_of_numeric_entries`. -/
def buildNumericSpecs (entries : List NumericArgEntry) : List NumericSpec :=
  entries.map fun e => ⟨e.namespace_, e.data_type⟩

/-- The per-row dict `numeric_restrict_entry`: the copied namespace, the
dict key used for the value (the `data_type` string, `None` allowed), and
the stored value. -/
structure NumericRestrictEntry where
  namespace_ : Option String
  typedKey : Option String
  value : PyVal
deriving DecidableEq, Repr

/-- `upsert_data` lines 753-762: one `numeric_restrict_entry` per stored
spec, in configuration order; `row[col_name]` with `col_name =
entry.get("namespace")` raises `KeyError` when absent, aborting the row. -/
def buildNumericEntries (specs : List NumericSpec) (row : Row) :
    Except PyErr (List NumericRestrictEntry) :=
  match specs with
  | [] => .ok []
  | s :: rest =>
      match pyRowGet row s.namespace_ with
      | .error e => .error e
      | .ok v =>
          match buildNumericEntries rest row with
          | .error e => .error e
          | .ok es => .ok (⟨s.namespace_, s.data_type, v⟩ :: es)

/-!
## Namespace restricts (`upsert_data` lines 722-748)

Per row, `allow_values` and `deny_values` are initialised once (lines
724-725) and then *shared by every* `entry` of `list_restrict_entries`:
each spec appends its columns' row values to the shared accumulators and
stringifies the whole accumulator into its own `allow_list`/`deny_list`.
-/

/-- A stored namespace filter entry (`list_restrict_entries` element):
`allow_list`/`deny_list` hold column names and the key is absent when the
configured entry had none. -/
structure NsSpec where
  namespace_ : Option String
  allow_list : Option (List String)
  deny_list : Option (List String)
deriving DecidableEq, Repr

/-- The per-row dict `restrict_entry` handed to `IndexDatapoint`. -/
structure RestrictEntry where
  namespace_ : Option String
  allow_list : Option (List String)
  deny_list : Option (List String)
deriving DecidableEq, Repr

/-- Python truthiness of `entry.get("allow_list")`: `None` and the empty
list are falsy. -/
def pyTruthyList : Option (List String) → Bool
  | none => false
  | some l => !l.isEmpty

/-- The inner `for col in entry.get(...)` loop: appends `row[col]` for each
column to the shared accumulator, raising `KeyError` on a missing column. -/
def lookupCols (row : Row) : List String → List PyVal → Except PyErr (List PyVal)
  | [], acc => .ok acc
  | c :: cs, acc =>
      match rowLookup row c with
      | none => .error (.keyError c)
      | some v => lookupCols row cs (acc ++ [v])

/-- The `for entry in self.list_restrict_entries` loop with the shared
accumulators threaded through: each spec's entry gets the *accumulated*
stringified values whenever its own column list is truthy. -/
def buildRestrictLoop (row : Row) :
    List NsSpec → List PyVal → List PyVal → Except PyErr (List RestrictEntry)
  | [], _, _ => .ok []
  | spec :: rest, allowAcc, denyAcc =>
      let allowStep : Except PyErr (List PyVal × Option (List String)) :=
        if pyTruthyList spec.allow_list then
          match lookupCols row (spec.allow_list.getD []) allowAcc with
          | .error e => .error e
          | .ok acc => .ok (acc, some (acc.map pyStr))
        else .ok (allowAcc, none)
      match allowStep with
      | .error e => .error e
      | .ok (allowAcc, aField) =>
          let denyStep : Except PyErr (List PyVal × Option (List String)) :=
            if pyTruthyList spec.deny_list then
              match lookupCols row (spec.deny_list.getD []) denyAcc with
              | .error e => .error e
              | .ok acc => .ok (acc, some (acc.map pyStr))
            else .ok (denyAcc, none)
          match denyStep with
          | .error e => .error e
          | .ok (denyAcc, dField) =>
              match buildRestrictLoop row rest allowAcc denyAcc with
              | .error e => .error e
              | .ok es => .ok (⟨spec.namespace_, aField, dField⟩ :: es)

/-- `upsert_data` lines 722-748: the restrict entries built for one row,
with both accumulators freshly empty (they are re-initialised per row). -/
def buildRestrictEntries (specs : List NsSpec) (row : Row) :
    Except PyErr (List RestrictEntry) :=
  buildRestrictLoop row specs [] []

/-!
## Remote resources and lookup (`_get_index`, lines 273-336)

The remote state is a listing of index resources and endpoint resources
under the parent scope.  `_get_index` first matches `self.index_name`
against every index's `display_name` and resource `name`; only when that
yields nothing does it search the deployed-index references of all indexes,
resolving a hit back through the owning endpoint.  The first collected
resource name is then fetched with `GetIndexRequest`.
-/

/-- A `deployed_indexes` element of an `Index` resource: a reference
carrying the owning endpoint, the deployed index id and a display name. -/
structure DeployedIndexRef where
  index_endpoint : String
  deployed_index_id : String
  display_name : String
deriving DecidableEq, Repr

/-- An `Index` resource: remote resource name, display name, and its
deployed-index references. -/
structure IndexRes where
  name : String
  display_name : String
  deployed_indexes : List DeployedIndexRef
deriving DecidableEq, Repr

/-- A `DeployedIndex` listed on an endpoint: id, display name, and the
resource name of the index it serves. -/
structure DeployedIndexRes where
  id : String
  display_name : String
  index : String
deriving DecidableEq, Repr

/-- An `IndexEndpoint` resource. -/
structure EndpointRes where
  name : String
  display_name : String
  deployed_indexes : List DeployedIndexRes
deriving DecidableEq, Repr

/-- The remote service state the client calls read and extend. -/
structure Backend where
  indexes : List IndexRes
  endpoints : List EndpointRes
deriving DecidableEq, Repr

/-- `_get_index` lines 286-292: the resource names of the indexes whose
`display_name` or `name` equals the requested name, in listing order. -/
def primaryMatches (n : String) (b : Backend) : List String :=
  (b.indexes.filter fun i => i.display_name == n || i.name == n).map IndexRes.name

/-- `_get_index` lines 296-324: the deployed-index fallback.  All indexes'
deployed-index references are collected; for the first one matching the
requested name the owning endpoint is fetched and the resource names of its
matching deployed indexes are returned.  A failing endpoint fetch is
swallowed by the `except` clause, leaving the list empty. -/
def deployedMatches (n : String) (b : Backend) : List String :=
  let dIds := (b.indexes.map IndexRes.deployed_indexes).flatten
  match dIds.filter (fun d => d.display_name == n || d.deployed_index_id == n) with
  | [] => []
  | m :: _ =>
      match b.endpoints.find? (fun e => e.name == m.index_endpoint) with
      | none => []
      | some ep =>
          (ep.deployed_indexes.filter fun d =>
            d.id == n || d.display_name == n).map DeployedIndexRes.index

/-- The `indexes` list `_get_index` ends up with for a requested name. -/
def lookupIds (n : String) (b : Backend) : List String :=
  if (primaryMatches n b).isEmpty then deployedMatches n b else primaryMatches n b

/-- `_get_index` (lines 273-336): raises `ResourceNotExistException` when
`self.index_name` is `None`; returns `None` when nothing matches; otherwise
fetches the *first* collected resource name via `GetIndexRequest` (a fetch
of a name absent from the listing surfaces the client's not-found error). -/
def _get_index (selfIndexName : Option String) (b : Backend) :
    Except PyErr (Option IndexRes) :=
  match selfIndexName with
  | none => .error (.resourceNotExist "index")
  | some n =>
      match lookupIds n b with
      | [] => .ok none
      | id0 :: _ =>
          match b.indexes.find? (fun i => i.name == id0) with
          | some ix => .ok (some ix)
          | none => .error (.notFoundError id0)

/-!
## Index creation (`_create_index`, lines 486-556)

Lines 505-507: a non-`None` `index_name` argument is *discarded* — the
local is reassigned to `self.args["target_index_name"]` and
`_set_index_name` stores that on the importer.  Then `self.index_name`
being `None` raises; otherwise `_get_index` runs and, when it finds
nothing, a `create_index` request is submitted and polled to completion.
The created resource carries `display_name = self.index_name`; its
resource `name` is assigned by the service (`freshName` below).
-/

/-- Lines 505-507 of `_create_index`: the importer's index name after the
argument handling — a non-`None` argument is replaced by
`args["target_index_name"]`. -/
def createIndexEffectiveName (passed argsTarget selfIndexName : Option String) :
    Option String :=
  if passed.isSome then argsTarget else selfIndexName

/-- `__init__` lines 145-170 restricted to the index name: with
`create_new_index` set, `self.index_name` starts as
`args["target_index_name"]` and, when that is `None`, becomes the
uuid-based `my_vvs_index_{uuid}`. -/
def initIndexName (argsTarget : Option String) (uuid : String) : Option String :=
  match argsTarget with
  | none => some ("my_vvs_index_" ++ uuid)
  | some n => some n

/-- The outcome of `_create_index`: the returned index, the backend after
the call, the number of `create_index` client calls issued, and the
importer's `self.index_name` after the call. -/
structure CreateResult where
  index : IndexRes
  backend : Backend
  createCalls : Nat
  selfIndexName : Option String
deriving DecidableEq, Repr

/-- `_create_index` (lines 486-556).  `passed` is the `index_name`
argument, `argsTarget` is `args["target_index_name"]`, `selfIndexName` the
importer's current name, `freshName` the resource name the service assigns
on creation.  The polling loop is modelled by the completed operation
result. -/
def _create_index (passed argsTarget selfIndexName : Option String)
    (b : Backend) (freshName : String) : Except PyErr CreateResult :=
  match createIndexEffectiveName passed argsTarget selfIndexName with
  | none => .error (.resourceNotExist "index")
  | some n =>
      match _get_index (some n) b with
      | .error e => .error e
      | .ok (some ix) => .ok ⟨ix, b, 0, some n⟩
      | .ok none =>
          let newIndex : IndexRes := ⟨freshName, n, []⟩
          .ok ⟨newIndex, ⟨b.indexes ++ [newIndex], b.endpoints⟩, 1, some n⟩

/-!
## Deployment (`_deploy_index`, lines 607-680)

Line 630 binds `index = self.index_name` — a *string*.  Inside the `try`
block every path evaluates `index.name` (line 637 when the endpoint has
deployed indexes, line 648 otherwise), and a Python `str` has no attribute
`name`, so an `AttributeError` is raised and re-raised by the `except`
clause before any `deploy_index` client call can happen.
-/

/-- Python attribute access `index.name` on a `str`: always raises. -/
def pyStrAttrName (_s : String) : Except PyErr String :=
  .error (.attrError "str object has no attribute name")

/-- Python `==` between a `str` and a `DeployedIndex` proto message: always
`False`, so the membership test `index.name in index_endpoint.deployed_indexes`
could never hold even if `index.name` were a string. -/
def strEqDeployedIndex (_s : String) (_d : DeployedIndexRes) : Bool := false

/-- The creation path of `_deploy_index` (lines 643-672): the deployed
index id is derived from `self.index_name` and the invoke time, the config
reads `index.name`, and a successful `deploy_index` call is polled and the
endpoint returned.  The pair's second component counts `deploy_index`
client calls. -/
def deployCreatePath (selfIndexName : String) (ep : EndpointRes)
    (invokeTime : String) : (Except PyErr EndpointRes) × Nat :=
  let depId := (selfIndexName.replace "-" "_") ++ "_" ++ invokeTime
  match pyStrAttrName selfIndexName with
  | .error e => (.error e, 0)
  | .ok ixName =>
      let dep : DeployedIndexRes := ⟨depId, depId, ixName⟩
      (.ok ⟨ep.name, ep.display_name, ep.deployed_indexes ++ [dep]⟩, 1)

/-- `_deploy_index` (lines 607-680) after its name-setting preamble:
`selfIndexName` is `self.index_name` (line 630 binds it to `index`) and
`endpointOpt` the result of `_get_index_endpoint` (which can be `None`).
Returns the outcome and the number of `deploy_index` client calls. -/
def _deploy_index (selfIndexName : String) (endpointOpt : Option EndpointRes)
    (invokeTime : String) : (Except PyErr EndpointRes) × Nat :=
  match endpointOpt with
  | none => (.error (.attrError "NoneType object has no attribute deployed_indexes"), 0)
  | some ep =>
      if !ep.deployed_indexes.isEmpty then
        match pyStrAttrName selfIndexName with
        | .error e => (.error e, 0)
        | .ok ixName =>
            if ep.deployed_indexes.any (strEqDeployedIndex ixName) then
              (.ok ep, 0)
            else
              deployCreatePath selfIndexName ep invokeTime
      else
        deployCreatePath selfIndexName ep invokeTime

/-!
## Ingestion accounting (`upsert_data`, lines 682-808)

`total_ids` is initialised at the top of *each namespace iteration*
(line 706) and collects one id per row of that namespace's files.  After
all loops, `upsert_data` prints `len(total_ids)` — the row count of the
last namespace processed — and returns `None`: no namespace-to-count
mapping is built or returned anywhere.
-/

/-- One namespace entry of the manifest's `indexes` mapping as `upsert_data`
consumes it: its name and the row lists of its parquet files in iteration
order. -/
structure NsData where
  nsName : String
  files : List (List Row)

/-- The rows a namespace contributes: `len(total_ids)` at the end of its
iteration. -/
def nsRowCount (ns : NsData) : Nat := (ns.files.map List.length).sum

/-- The count `upsert_data` reports in its final print: `len(total_ids)`
with `total_ids` re-initialised per namespace, i.e. the row count of the
last namespace iterated (indexes in manifest order, then namespaces);
`none` when no namespace was iterated (the name `total_ids` is then
unbound). -/
def upsertDataFinalCount (indexes : List (String × List NsData)) : Option Nat :=
  ((indexes.map Prod.snd).flatten.getLast?).map nsRowCount

/-- The total the claim attributes to the report: all rows of all files of
all namespaces of all indexes. -/
def manifestTotalRows (indexes : List (String × List NsData)) : Nat :=
  (((indexes.map Prod.snd).flatten).map nsRowCount).sum

/-!
## Batch submission and failure (`upsert_data`, lines 788-803)

Each flushed payload triggers exactly one
`self.index_client.upsert_datapoints(request=...)` call.  There is no
`try`/`except` and no retry loop around it: the first raised error
propagates out of `upsert_data`, aborting the run.
-/

/-- The submission loop over the flushed batches.  `respond k` is the
outcome the client gives the `k`-th call (`none` = success).  Returns the
number of calls made and the error that propagated, if any. -/
def submitLoop (respond : Nat → Option PyErr) :
    List (List α) → Nat → Nat × Option PyErr
  | [], k => (k, none)
  | _ :: bs, k =>
      match respond k with
      | none => submitLoop respond bs (k + 1)
      | some e => (k + 1, some e)

/-- All `upsert_datapoints` calls `upsert_data` makes for the flushed
batches, starting from the first call. -/
def submitBatches (respond : Nat → Option PyErr) (batches : List (List α)) :
    Nat × Option PyErr :=
  submitLoop respond batches 0

/-!
## `get_vector_column_name` (`vdf_import_cls.py`, lines 107-122)
-/

/-- The namespace metadata mapping restricted to the key
`get_vector_column_name` reads: `vector_columns`, absent or a list. -/
structure NamespaceMetaMap where
  vector_columns : Option (List String)
deriving DecidableEq, Repr

/-- `ImportVDB.get_vector_column_name`: without a `vector_columns` key it
falls back to the literal `"vector"`; otherwise it selects the first
declared column (an empty declared list raises `IndexError`), warning —
without failing — when several are declared. -/
def get_vector_column_name (_index_name : String) (meta : NamespaceMetaMap) :
    Except PyErr (List String × String) :=
  match meta.vector_columns with
  | none => .ok (["vector"], "vector")
  | some vs =>
      match vs with
      | [] => .error (.idxError "list index out of range")
      | v :: _ => .ok (vs, v)

/-- C1: with batch size 4, a 6-row file is submitted as three batches
`[1, 4, 1]`: the check `idx % batch_size == 0` already fires at `idx = 0`,
flushing the first row alone, while `ceil(6 / 4) = 2`. -/
theorem c1_first_row_flushed_alone :
    upsertBatches 4 [0, 1, 2, 3, 4, 5] = [[0], [1, 2, 3, 4], [5]] ∧
    (upsertBatches 4 ([0, 1, 2, 3, 4, 5] : List Nat)).length = 3 ∧
    ceilDiv 6 4 = 2 := by
  refine ⟨rfl, rfl, rfl⟩

/-- C2 counterexample: a numeric filter spec with `data_type = "float"`
over the integer row value `3` produces an entry whose stored value is the
integer `3`, not the float `3.0`; and the stored spec built by `__init__`
discards the configured source column (`"sc"`), looking the value up under
the namespace instead (row value `7` under `"sc"` is never read). -/
theorem c2_counterexample :
    buildNumericSpecs [⟨some "n", some "float", some "sc"⟩] =
      [⟨some "n", some "float"⟩] ∧
    buildNumericEntries [⟨some "n", some "float"⟩]
        [("n", PyVal.int 3), ("sc", PyVal.int 7)] =
      .ok [⟨some "n", some "float", PyVal.int 3⟩] ∧
    PyVal.int 3 ≠ PyVal.float 3 ∧ PyVal.int 3 ≠ PyVal.float 7 := by
  refine ⟨rfl, rfl, by decide, by decide⟩

/-- C2 (amended): per row, `upsert_data` emits exactly one numeric restrict
entry per stored spec, in order; each entry copies the spec's namespace,
keys the value by the spec's `data_type`, and stores the raw row value
found under the spec's *namespace* with no conversion; when some spec's
namespace column is absent from the row the construction fails with a
raised error instead of producing entries. -/
theorem c2_numeric_entries_raw (specs : List NumericSpec) (row : Row) :
    (∀ es, buildNumericEntries specs row = .ok es →
      List.Forall₂ (fun (s : NumericSpec) (e : NumericRestrictEntry) =>
        e.namespace_ = s.namespace_ ∧ e.typedKey = s.data_type ∧
        pyRowGet row s.namespace_ = .ok e.value) specs es) ∧
    ((∃ s ∈ specs, ¬ (pyRowGet row s.namespace_).isOk) →
      ¬ (buildNumericEntries specs row).isOk) := by
  induction specs with
  | nil =>
      refine ⟨fun es h => ?_, fun ⟨s, hs, _⟩ => absurd hs (by simp)⟩
      simp only [buildNumericEntries] at h
      cases h
      exact List.Forall₂.nil
  | cons s rest ih =>
      constructor
      · intro es h
        simp only [buildNumericEntries] at h
        cases hv : pyRowGet row s.namespace_ with
        | error e => rw [hv] at h; cases h
        | ok v =>
            rw [hv] at h
            cases hr : buildNumericEntries rest row with
            | error e => rw [hr] at h; cases h
            | ok es' =>
                rw [hr] at h
                cases h
                exact List.Forall₂.cons ⟨rfl, rfl, hv⟩ (ih.1 es' hr)
      · rintro ⟨t, ht, hbad⟩
        simp only [buildNumericEntries]
        cases hv : pyRowGet row s.namespace_ with
        | error e => simp [Except.isOk, Except.toBool]
        | ok v =>
            cases hr : buildNumericEntries rest row with
            | error e => simp [Except.isOk, Except.toBool]
            | ok es' =>
                intro _
                rcases List.mem_cons.mp ht with rfl | htr
                · rw [hv] at hbad; exact hbad rfl
                · have h2 := ih.2 ⟨t, htr, hbad⟩
                  rw [hr] at h2
                  exact h2 rfl

/-- C2 witness: at the concrete spec `{namespace: "n", data_type: "float"}`
the success part yields exactly one entry for the one spec, and over a row
lacking column `"n"` the construction fails. -/
theorem c2_numeric_entries_raw_witness :
    List.Forall₂ (fun (s : NumericSpec) (e : NumericRestrictEntry) =>
        e.namespace_ = s.namespace_ ∧ e.typedKey = s.data_type ∧
        pyRowGet [("n", PyVal.int 3)] s.namespace_ = .ok e.value)
      [⟨some "n", some "float"⟩] [⟨some "n", some "float", PyVal.int 3⟩] ∧
    ¬ (buildNumericEntries [⟨some "n", some "float"⟩]
        [("m", PyVal.int 3)]).isOk := by
  constructor
  · exact (c2_numeric_entries_raw [⟨some "n", some "float"⟩]
      [("n", PyVal.int 3)]).1 _ rfl
  · exact (c2_numeric_entries_raw [⟨some "n", some "float"⟩]
      [("m", PyVal.int 3)]).2 ⟨⟨some "n", some "float"⟩, by simp, by decide⟩

/-- C3: values leak across specs of the same row: with spec `brand`
(allow column `a`) followed by spec `color` (allow column `b`) over the row
`{a: 1, b: 2}`, the `color` entry's allow list is `["1", "2"]` — it carries
`brand`'s value `"1"` — because `allow_values` is initialised per row, not
per spec. -/
theorem c3_allow_values_leak_across_specs :
    buildRestrictEntries
        [⟨some "brand", some ["a"], none⟩, ⟨some "color", some ["b"], none⟩]
        [("a", PyVal.int 1), ("b", PyVal.int 2)] =
      .ok [⟨some "brand", some ["1"], none⟩,
           ⟨some "color", some ["1", "2"], none⟩] := by
  rfl

/-- Helper: `find?` skips a prefix on which the predicate is false. -/
theorem find?_append_of_none {α : Type} (p : α → Bool) (l₁ l₂ : List α)
    (h : ∀ x ∈ l₁, p x = false) : (l₁ ++ l₂).find? p = l₂.find? p := by
  induction l₁ with
  | nil => rfl
  | cons a l ih =>
      rw [List.cons_append, List.find?_cons_of_neg]
      · exact ih fun x hx => h x (List.mem_cons_of_mem a hx)
      · simp [h a (List.mem_cons_self a l)]

/-- Helper: when `_get_index` reports nothing found, the collected id list
was empty. -/
theorem lookupIds_eq_nil_of_get_index_none (n : String) (b : Backend)
    (h : _get_index (some n) b = .ok none) : lookupIds n b = [] := by
  cases hl : lookupIds n b with
  | nil => rfl
  | cons id0 tl =>
      simp only [_get_index, hl] at h
      cases hf : b.indexes.find? (fun i => i.name == id0) with
      | some ix => rw [hf] at h; simp at h
      | none => rw [hf] at h; simp at h

/-- Helper: an empty collected id list means no index matched by display
name or resource name. -/
theorem primaryMatches_eq_nil_of_lookupIds (n : String) (b : Backend)
    (h : lookupIds n b = []) : primaryMatches n b = [] := by
  cases hp : (primaryMatches n b).isEmpty with
  | true => exact List.isEmpty_iff.mp hp
  | false =>
      simp only [lookupIds, hp, Bool.false_eq_true, if_false] at h
      exact h

/-- Helper: the head of the primary match list is the name of the first
matching index. -/
theorem filterMap_name_head (n : String) (l : List IndexRes) (i0 : IndexRes)
    (h : l.find? (fun i => i.display_name == n || i.name == n) = some i0) :
    ∃ rest, (l.filter (fun i => i.display_name == n || i.name == n)).map
      IndexRes.name = i0.name :: rest := by
  induction l with
  | nil => cases h
  | cons a l ih =>
      cases ha : (a.display_name == n || a.name == n) with
      | true =>
          simp only [List.find?, ha] at h
          cases h
          exact ⟨(l.filter (fun i => i.display_name == n || i.name == n)).map
            IndexRes.name, by simp [List.filter_cons, ha]⟩
      | false =>
          simp only [List.find?, ha] at h
          have := ih h
          simpa [List.filter_cons, ha] using this

/-- C4: with an endpoint whose deployed-index list already contains the
target index's resource id, `_deploy_index` does issue zero `deploy_index`
calls, but it raises `AttributeError` instead of returning the endpoint:
line 630 binds `index = self.index_name` (a `str`), and the skip check
evaluates `index.name`. -/
theorem c4_deploy_skip_raises :
    _deploy_index "projects/p/locations/l/indexes/42"
        (some ⟨"projects/p/locations/l/indexEndpoints/7", "demo_endpoint",
          [⟨"demo_dep", "demo_dep", "projects/p/locations/l/indexes/42"⟩]⟩)
        "20240101_000000" =
      (.error (.attrError "str object has no attribute name"), 0) := by
  rfl

/-- C5: with the effective index name `n`, a backend in which `n` resolves
to nothing, and a service-assigned resource name fresh for the backend,
running `_create_index` twice in sequence issues exactly one `create_index`
call in total and returns the same resource name both times: the second
run's lookup finds the index the first run created. -/
theorem c5_reconcile_idempotent (n f1 f2 : String)
    (passed argsTarget selfIdx : Option String) (b : Backend)
    (heff : createIndexEffectiveName passed argsTarget selfIdx = some n)
    (hfresh : ∀ i ∈ b.indexes, i.name ≠ f1)
    (habsent : _get_index (some n) b = .ok none) :
    ∃ r1 r2, _create_index passed argsTarget selfIdx b f1 = .ok r1 ∧
      _create_index passed argsTarget selfIdx r1.backend f2 = .ok r2 ∧
      r1.index.name = r2.index.name ∧
      r1.createCalls = 1 ∧ r2.createCalls = 0 := by
  have hlook := lookupIds_eq_nil_of_get_index_none n b habsent
  have hprim := primaryMatches_eq_nil_of_lookupIds n b hlook
  have hfb : b.indexes.filter (fun i => i.display_name == n || i.name == n) = [] :=
    List.map_eq_nil_iff.mp hprim
  refine ⟨⟨⟨f1, n, []⟩, ⟨b.indexes ++ [⟨f1, n, []⟩], b.endpoints⟩, 1, some n⟩,
          ⟨⟨f1, n, []⟩, ⟨b.indexes ++ [⟨f1, n, []⟩], b.endpoints⟩, 0, some n⟩,
          ?_, ?_, rfl, rfl, rfl⟩
  · simp only [_create_index, heff, habsent]
  · have hprim1 : primaryMatches n ⟨b.indexes ++ [⟨f1, n, []⟩], b.endpoints⟩ = [f1] := by
      simp [primaryMatches, List.filter_append, hfb]
    have hfind : (b.indexes ++ [(⟨f1, n, []⟩ : IndexRes)]).find?
        (fun i => i.name == f1) = some ⟨f1, n, []⟩ := by
      rw [find?_append_of_none _ _ _ (fun i hi => by simp [hfresh i hi])]
      simp
    have hlook1 : lookupIds n ⟨b.indexes ++ [⟨f1, n, []⟩], b.endpoints⟩ = [f1] := by
      simp [lookupIds, hprim1]
    have hget1 : _get_index (some n) ⟨b.indexes ++ [⟨f1, n, []⟩], b.endpoints⟩ =
        .ok (some ⟨f1, n, []⟩) := by
      simp only [_get_index, hlook1, hfind]
    simp only [_create_index, heff, hget1]

/-- C5 witness: over the empty backend with effective name `"demo"`, the
two sequential runs create once and agree on the resource name. -/
theorem c5_reconcile_idempotent_witness :
    ∃ r1 r2, _create_index none none (some "demo") ⟨[], []⟩
        "projects/p/indexes/1" = .ok r1 ∧
      _create_index none none (some "demo") r1.backend
        "projects/p/indexes/2" = .ok r2 ∧
      r1.index.name = r2.index.name ∧
      r1.createCalls = 1 ∧ r2.createCalls = 0 :=
  c5_reconcile_idempotent "demo" "projects/p/indexes/1" "projects/p/indexes/2"
    none none (some "demo") ⟨[], []⟩ rfl (by simp) rfl

/-- C6 counterexample: a manifest with one index holding two namespaces of
3 rows each totals 6 rows, yet the count `upsert_data` reports at the end
is 3 — `total_ids` was re-initialised for the second namespace — and no
namespace-to-count mapping exists to report. -/
theorem c6_counterexample :
    upsertDataFinalCount
        [("demo", [⟨"ns1", [[[], [], []]]⟩, ⟨"ns2", [[[], [], []]]⟩])] =
      some 3 ∧
    manifestTotalRows
        [("demo", [⟨"ns1", [[[], [], []]]⟩, ⟨"ns2", [[[], [], []]]⟩])] = 6 := by
  exact ⟨rfl, rfl⟩

/-- C6 (amended): `upsert_data` returns no mapping; the single count it
reports equals the row count of the last namespace in processing order —
which is the namespace's full file total only when it is the manifest's
last namespace (in particular for single-namespace manifests). -/
theorem c6_last_namespace_count (pre : List (String × List NsData))
    (iname : String) (nss : List NsData) (ns : NsData) :
    upsertDataFinalCount (pre ++ [(iname, nss ++ [ns])]) =
      some (nsRowCount ns) := by
  simp only [upsertDataFinalCount, List.map_append, List.flatten_append,
    List.map_cons, List.map_nil, List.flatten_cons, List.flatten_nil,
    List.append_nil]
  rw [← List.append_assoc, List.getLast?_concat]
  rfl

/-- Helper for C7: the calls the submission loop makes when the calls
before `i` succeed and call `i` fails: the loop stops right after call `i`,
with no second attempt for the failed batch. -/
theorem submitLoop_first_error {α : Type} (respond : Nat → Option PyErr)
    (e : PyErr) :
    ∀ (bs : List (List α)) (k i : Nat), i < bs.length →
    (∀ j, j < i → respond (k + j) = none) → respond (k + i) = some e →
    submitLoop respond bs k = (k + i + 1, some e) := by
  intro bs
  induction bs with
  | nil => intro k i hi; exact absurd hi (Nat.not_lt_zero i)
  | cons b bs ih =>
      intro k i hi hok he
      cases i with
      | zero =>
          simp only [Nat.add_zero] at he
          simp only [submitLoop, he]
      | succ i =>
          have h0 : respond k = none := by
            simpa using hok 0 (Nat.succ_pos i)
          simp only [submitLoop, h0]
          have := ih (k + 1) i (Nat.lt_of_succ_lt_succ hi)
            (fun j hj => by
              have := hok (j + 1) (Nat.succ_lt_succ hj)
              simpa [Nat.add_assoc, Nat.add_comm 1 j] using this)
            (by simpa [Nat.add_assoc, Nat.add_comm 1 i] using he)
          simpa [Nat.add_assoc, Nat.add_comm 1 i] using this

/-- C7 counterexample: the first upsert call fails with a transient
service error while a second attempt would succeed (`respond 1 = none`),
yet the run stops after exactly one call, propagating the error — nothing
is retried. -/
theorem c7_counterexample :
    submitBatches (fun k => if k == 0 then some (.apiError "503 unavailable")
        else none) ([[0], [1]] : List (List Nat)) =
      (1, some (.apiError "503 unavailable")) ∧
    (fun k => if k == 0 then some (PyErr.apiError "503 unavailable")
        else none) 1 = none := by
  exact ⟨rfl, rfl⟩

/-- C7 (amended): `upsert_data` performs each batch's upsert call exactly
once; when the calls for batches `0..i-1` succeed and the call for batch
`i` raises, the raised error propagates immediately — the run aborts after
`i + 1` calls, with no retry, no backoff and no attempt bound. -/
theorem c7_no_retry {α : Type} (respond : Nat → Option PyErr)
    (batches : List (List α)) (i : Nat) (e : PyErr)
    (hi : i < batches.length)
    (hok : ∀ j, j < i → respond j = none) (he : respond i = some e) :
    submitBatches respond batches = (i + 1, some e) := by
  have := submitLoop_first_error respond e batches 0 i hi
    (fun j hj => by simpa using hok j hj) (by simpa using he)
  simpa [submitBatches] using this

/-- C7 witness: two batches, first call fails: exactly one call is made
and the error propagates. -/
theorem c7_no_retry_witness :
    submitBatches (fun k => if k == 0 then some (.apiError "quota") else none)
      ([[0], [1]] : List (List Nat)) = (1, some (.apiError "quota")) := by
  have h := c7_no_retry
    (fun k => if k == 0 then some (PyErr.apiError "quota") else none)
    ([[0], [1]] : List (List Nat)) 0 (.apiError "quota") (by decide)
    (fun j hj => absurd hj (Nat.not_lt_zero j)) rfl
  simpa using h

/-- C8 counterexample: two remote indexes both carry the display name
`"dup"`; `_get_index` raises nothing and silently returns the first. -/
theorem c8_counterexample :
    _get_index (some "dup") ⟨[⟨"r1", "dup", []⟩, ⟨"r2", "dup", []⟩], []⟩ =
      .ok (some ⟨"r1", "dup", []⟩) := by
  rfl

/-- C8 (amended): even when the lookup is ambiguous (two or more indexes
match the requested name), `_get_index` raises no error: it selects the
first match in listing order and returns the index fetched under that
resource name. -/
theorem c8_first_match_selected (n : String) (b : Backend) (i0 : IndexRes)
    (hfirst : b.indexes.find? (fun i => i.display_name == n || i.name == n) =
      some i0)
    (_hamb : 2 ≤ (primaryMatches n b).length) :
    ∃ ix, _get_index (some n) b = .ok (some ix) ∧ ix.name = i0.name := by
  obtain ⟨rest, hpm⟩ := filterMap_name_head n b.indexes i0 hfirst
  have hpm' : primaryMatches n b = i0.name :: rest := hpm
  have hlook : lookupIds n b = i0.name :: rest := by
    simp [lookupIds, hpm']
  have hmem : i0 ∈ b.indexes := List.mem_of_find?_eq_some hfirst
  have hsome : (b.indexes.find? (fun i => i.name == i0.name)).isSome := by
    rw [List.find?_isSome]
    exact ⟨i0, hmem, by simp⟩
  obtain ⟨ix, hix⟩ := Option.isSome_iff_exists.mp hsome
  have hixname := List.find?_some hix
  refine ⟨ix, ?_, by simpa using hixname⟩
  simp only [_get_index, hlook, hix]

/-- C8 witness: the concrete ambiguous backend of the counterexample,
through the amended theorem. -/
theorem c8_first_match_selected_witness :
    ∃ ix, _get_index (some "dup")
        ⟨[⟨"r1", "dup", []⟩, ⟨"r2", "dup", []⟩], []⟩ = .ok (some ix) ∧
      ix.name = "r1" := by
  have h := c8_first_match_selected "dup"
    ⟨[⟨"r1", "dup", []⟩, ⟨"r2", "dup", []⟩], []⟩ ⟨"r1", "dup", []⟩
    (by rfl) (by decide)
  simpa using h

/-- C9: a non-`None` `index_name` argument to `_create_index` is discarded
in favour of `args["target_index_name"]`; hence a run with
`create_new_index` set and `target_index_name = None` generates the
uuid-based name `my_vvs_index_{uuid}`, passes it to `_create_index`, and
still fails with `ResourceNotExistException` — the generated name is never
used for creation. -/
theorem c9_target_index_name_override (passed u : String)
    (argsTarget selfIdx : Option String) (b : Backend) (f : String) :
    createIndexEffectiveName (some passed) argsTarget selfIdx = argsTarget ∧
    initIndexName none u = some ("my_vvs_index_" ++ u) ∧
    _create_index (initIndexName none u) none selfIdx b f =
      .error (.resourceNotExist "index") := by
  refine ⟨rfl, rfl, ?_⟩
  simp [_create_index, createIndexEffectiveName, initIndexName]

/-- C10: a namespace metadata mapping without the `vector_columns` key does
not fail `get_vector_column_name`: the selected vector column is the
literal `"vector"` and the full list is `["vector"]`. -/
theorem c10_default_vector_column (iname : String) (meta : NamespaceMetaMap)
    (h : meta.vector_columns = none) :
    get_vector_column_name iname meta = .ok (["vector"], "vector") := by
  simp [get_vector_column_name, h]

/-- C10 witness: the concrete metadata mapping with no `vector_columns`. -/
theorem c10_default_vector_column_witness :
    get_vector_column_name "demo" ⟨none⟩ = .ok (["vector"], "vector") :=
  c10_default_vector_column "demo" ⟨none⟩ rfl
